import Mathlib

/-!
Shallow embedding of the haru_chat_auth_server authentication service.

The relational store (`users`, `roles`, `user_roles`) is a record of lists;
each SQL statement of `dbService.js` is a function on it.  Fallible service
methods return `Except JsError`, and methods that write the store return the
post-call store alongside the outcome (a rolled-back transaction returns the
original store).  External collaborators (bcrypt, jsonwebtoken) are either
parameters (`cmp`, `hashFn`) or modelled from the spec's Token Codec contract.
JS objects that cross the service boundary (the "safe user" and JWT payloads)
are embedded as association lists of string keys to JS values, mirroring the
object literals of the source.
-/

/-- A JavaScript runtime value, as far as this service manipulates them.
`vNull` stands for both `null` and `undefined`. -/
inductive JsValue where
  | vNull
  | vNum (n : Int)
  | vStr (s : String)
  | vBool (b : Bool)
  | vDate (t : Int)
  | vList (xs : List JsValue)
deriving Repr

/-- A JS object literal: ordered association list of named fields. -/
abbrev JsObj := List (String × JsValue)

/-- JS property access returning `Option` (absent field). -/
def objGetOpt (o : JsObj) (k : String) : Option JsValue :=
  (o.find? (fun p => p.1 == k)).map (fun p => p.2)

/-- JS property access: an absent field reads as `undefined` (`vNull`). -/
def objGet (o : JsObj) (k : String) : JsValue :=
  (objGetOpt o k).getD .vNull

/-- The keys of a JS object, in declaration order. -/
def objKeys (o : JsObj) : List String := o.map (fun p => p.1)

/-- JS truthiness on the embedded values. -/
def isTruthy : JsValue → Bool
  | .vNull => false
  | .vNum n => n != 0
  | .vStr s => s != ""
  | .vBool b => b
  | .vDate _ => true
  | .vList _ => true

/-- The error classes of `errorMiddleware.js` plus the generic `Error` and
the two `jsonwebtoken` error names distinguished by callers. -/
inductive JsError where
  | validation (msg : String)
  | authentication (msg : String)
  | forbidden (msg : String)
  | notFound (msg : String)
  | conflict (msg : String)
  | generic (msg : String)
  | tokenExpired (msg : String)
  | tokenInvalid (msg : String)
deriving Repr, BEq, DecidableEq

/-- `error.message`. -/
def JsError.message : JsError → String
  | .validation m | .authentication m | .forbidden m | .notFound m
  | .conflict m | .generic m | .tokenExpired m | .tokenInvalid m => m

/-- `error.name` as set by the constructors in `errorMiddleware.js`
(and by `jsonwebtoken` for token errors). -/
def JsError.name : JsError → String
  | .validation _ => "ValidationError"
  | .authentication _ => "AuthenticationError"
  | .forbidden _ => "ForbiddenError"
  | .notFound _ => "NotFoundError"
  | .conflict _ => "ConflictError"
  | .generic _ => "Error"
  | .tokenExpired _ => "TokenExpiredError"
  | .tokenInvalid _ => "JsonWebTokenError"

/-- JS string conversion of an `Error`: `` `${error}` `` gives
`name + ": " + message`. -/
def JsError.toStr (e : JsError) : String :=
  e.name ++ ": " ++ e.message

/-- Does `p` occur at the head of `l`? (list-level `String.startsWith`). -/
def leadMatch : List Char → List Char → Bool
  | [], _ => true
  | _ :: _, [] => false
  | a :: as, b :: bs => a == b && leadMatch as bs

/-- Does `sub` occur anywhere in `l`? -/
def subSearch (sub : List Char) : List Char → Bool
  | [] => leadMatch sub []
  | c :: rest => leadMatch sub (c :: rest) || subSearch sub rest

/-- JS `String.prototype.includes` (case-sensitive substring test). -/
def strIncludes (s sub : String) : Bool :=
  subSearch sub.toList s.toList

/-- JS `String.prototype.split(" ")`: split at every single space,
keeping empty chunks; the result is never empty. -/
def jsSplitSpace : List Char → List (List Char)
  | [] => [[]]
  | c :: cs =>
    match jsSplitSpace cs with
    | [] => [[]]
    | w :: ws => if c == ' ' then [] :: w :: ws else (c :: w) :: ws

/-- `extractToken` from `utils/jwtUtils.js`: if the Authorization header is
present and starts with `"Bearer "`, return `header.split(" ")[1]`,
else `null`.  The header is `req.headers.authorization`. -/
def extractToken (authHeader : Option String) : Option String :=
  match authHeader with
  | none => none
  | some h =>
    if leadMatch "Bearer ".toList h.toList then
      ((jsSplitSpace h.toList).get? 1).map (fun cs => String.mk cs)
    else
      none

-- basic sanity checks of the embedding on concrete inputs
example : extractToken (some "Bearer abc") = some "abc" := by decide
example : extractToken (some "Basic abc") = none := by decide
example : extractToken none = none := by decide
example : extractToken (some "Bearer a b") = some "a" := by decide
example : extractToken (some "Bearer ") = some "" := by decide

/-- A row of the `users` table:
`users(id pk, username, password, created_at, is_banned)`. -/
structure UserRow where
  id : Nat
  username : String
  password : String
  created_at : Int
  is_banned : Bool
deriving Repr, DecidableEq

/-- The relational store — `users`, `roles`, `user_roles` — plus the id
sequence backing `users.id`. -/
structure Store where
  users : List UserRow
  roles : List (Nat × String)
  user_roles : List (Nat × Nat)
  nextId : Nat
deriving Repr, DecidableEq

/-- Referential integrity of the join table: every `user_roles` row points
at an existing `users` row. -/
def Store.rolesLinked (s : Store) : Prop :=
  ∀ p ∈ s.user_roles, ∃ r ∈ s.users, r.id = p.1

/-- The `User` model of `models/User.js`: the state behind its getters. -/
structure User where
  id : Option Nat
  username : String
  password : String
  createdAt : Int
  isBanned : Bool
  roles : List String
deriving Repr, DecidableEq

/-- `User.getSafeObject`: the object literal handed to callers, with the
credential hash left out. -/
def User.getSafeObject (u : User) : JsObj :=
  [ ("id", match u.id with | some n => .vNum n | none => .vNull),
    ("username", .vStr u.username),
    ("createdAt", .vDate u.createdAt),
    ("isBanned", .vBool u.isBanned),
    ("roles", .vList (u.roles.map (fun r => .vStr r))) ]

/-- Role names aggregated for one user by the
`LEFT JOIN user_roles / LEFT JOIN roles ... array_agg(r.name)` query; the
`NULL` placeholder a roleless user gets from the left join is dropped, as
`_mapDbUserToModel` filters nulls out. -/
def rolesOfUser (s : Store) (uid : Nat) : List String :=
  (s.user_roles.filter (fun p => p.1 == uid)).filterMap
    (fun p => (s.roles.find? (fun r => r.1 == p.2)).map (fun r => r.2))

/-- `DbService._mapDbUserToModel`: build a `User` from a `users` row and its
aggregated role names. -/
def mapDbUserToModel (s : Store) (row : UserRow) : User :=
  { id := some row.id, username := row.username, password := row.password,
    createdAt := row.created_at, isBanned := row.is_banned,
    roles := rolesOfUser s row.id }

namespace DbService

/-- Statement-failure schedule for the two inserts of `saveUser`:
`some e` makes that statement raise `e`. -/
structure SaveFail where
  onUserIns : Option JsError
  onRoleIns : Option JsError

/-- The schedule on which both inserts succeed. -/
def SaveFail.noFail : SaveFail := ⟨none, none⟩

/-- `DbService.saveUser`: BEGIN; `INSERT INTO users ... RETURNING id`;
`INSERT INTO user_roles (user_id, role_id) VALUES (id, 1)`; COMMIT.  When a
statement raises, the catch issues ROLLBACK, so the pre-call store comes
back together with the underlying error. -/
def saveUser (f : SaveFail) (s : Store) (u : User) : Store × Except JsError Nat :=
  let body : Except JsError (Store × Nat) :=
    match f.onUserIns with
    | some e => .error e
    | none =>
      let uid := s.nextId
      let s1 : Store :=
        { s with
          users := s.users ++ [{ id := uid, username := u.username,
                                 password := u.password,
                                 created_at := u.createdAt,
                                 is_banned := u.isBanned }],
          nextId := uid + 1 }
      match f.onRoleIns with
      | some e => .error e
      | none => .ok ({ s1 with user_roles := s1.user_roles ++ [(uid, 1)] }, uid)
  match body with
  | .ok (s2, uid) => (s2, .ok uid)
  | .error e => (s, .error e)

/-- `DbService.getUserById`: the single-row aggregate query, then
`_mapDbUserToModel`; `null` when no row matches. -/
def getUserById (s : Store) (id : Nat) : Option User :=
  (s.users.find? (fun r => r.id == id)).map (mapDbUserToModel s)

/-- `DbService.getUserByUsername`: as `getUserById`, keyed on `username`. -/
def getUserByUsername (s : Store) (username : String) : Option User :=
  (s.users.find? (fun r => r.username == username)).map (mapDbUserToModel s)

/-- `DbService.getAllUsers`: the aggregate query over every user, read by
its intended relational semantics. -/
def getAllUsers (s : Store) : List User :=
  s.users.map (mapDbUserToModel s)

/-- Statement-failure schedule for the two deletes of `deleteUser`. -/
structure DelFail where
  onRoleDel : Option JsError
  onUserDel : Option JsError

/-- The schedule on which both deletes succeed. -/
def DelFail.noFail : DelFail := ⟨none, none⟩

/-- `DbService.deleteUser`: BEGIN; `DELETE FROM user_roles WHERE user_id=$1`;
`DELETE FROM users WHERE id=$1 RETURNING id`; COMMIT; only after the commit,
if the second delete returned no row, throw `NotFoundError` — the catch's
ROLLBACK then runs after the COMMIT and undoes nothing, so the committed
deletes stand.  A statement failure inside the transaction rolls back fully. -/
def deleteUser (f : DelFail) (s : Store) (id : Nat) : Store × Except JsError Bool :=
  let body : Except JsError (Store × List Nat) :=
    match f.onRoleDel with
    | some e => .error e
    | none =>
      let s1 : Store := { s with user_roles := s.user_roles.filter (fun p => p.1 != id) }
      match f.onUserDel with
      | some e => .error e
      | none =>
        let returned := (s1.users.filter (fun r => r.id == id)).map (fun r => r.id)
        .ok ({ s1 with users := s1.users.filter (fun r => r.id != id) }, returned)
  match body with
  | .error e => (s, .error e)
  | .ok (s2, returned) =>
    if returned.length == 0 then (s2, .error (.notFound "User not found"))
    else (s2, .ok true)

/-- `DbService.banUser`: `UPDATE users SET is_banned = true WHERE id = $1
RETURNING id`; `NotFoundError` when no row matched (the update then touched
nothing). -/
def banUser (s : Store) (id : Nat) : Store × Except JsError Bool :=
  let returned := (s.users.filter (fun r => r.id == id)).map (fun r => r.id)
  let updated := s.users.map (fun r => if r.id == id then { r with is_banned := true } else r)
  let s1 : Store := { s with users := updated }
  if returned.length == 0 then (s1, .error (.notFound "User not found"))
  else (s1, .ok true)

/-- `DbService.unbanUser`: as `banUser`, with `is_banned = false`. -/
def unbanUser (s : Store) (id : Nat) : Store × Except JsError Bool :=
  let returned := (s.users.filter (fun r => r.id == id)).map (fun r => r.id)
  let updated := s.users.map (fun r => if r.id == id then { r with is_banned := false } else r)
  let s1 : Store := { s with users := updated }
  if returned.length == 0 then (s1, .error (.notFound "User not found"))
  else (s1, .ok true)

/-- `DbService.getBanStatus`. -/
def getBanStatus (s : Store) (id : Nat) : Except JsError Bool :=
  match s.users.find? (fun r => r.id == id) with
  | none => .error (.notFound "User not found")
  | some r => .ok r.is_banned

end DbService

namespace UserService

/-- `UserService.hashPassword`, with `bcrypt.hash` abstracted as `hashFn`
(the salt rounds live inside the abstracted function). -/
def hashPassword (hashFn : String → String) (password : String) : String :=
  hashFn password

/-- `UserService.verifyPassword`, with `bcrypt.compare` abstracted as `cmp`. -/
def verifyPassword (cmp : String → String → Bool) (password hashed : String) : Bool :=
  cmp password hashed

/-- `UserService.getUserByUsername`: safe object, or `null` when absent. -/
def getUserByUsername (s : Store) (username : String) : Option JsObj :=
  (DbService.getUserByUsername s username).map User.getSafeObject

/-- `UserService.getUserById` (the id argument is already a number). -/
def getUserById (s : Store) (id : Nat) : Option JsObj :=
  (DbService.getUserById s id).map User.getSafeObject

/-- `UserService.getAllUsers`: every user mapped to its safe object. -/
def getAllUsers (s : Store) : List JsObj :=
  (DbService.getAllUsers s).map User.getSafeObject

/-- `UserService.createUser`: reject an existing username, hash the
password, persist through `saveUser`, install the generated id, and return
the safe object.  Every error escaping the `try` is re-thrown by the catch
as a generic `Error` whose message is
`"Error creating new user: " ++ String(error)`; the duplicate-username
error thrown inside the `try` is the generic
`Error("Error user already exists:")`. -/
def createUser (hashFn : String → String) (f : DbService.SaveFail) (now : Int)
    (s : Store) (username password : String) : Store × Except JsError JsObj :=
  match getUserByUsername s username with
  | some _ =>
    (s, .error (.generic ("Error creating new user: "
          ++ JsError.toStr (.generic "Error user already exists:"))))
  | none =>
    let hashed := hashPassword hashFn password
    let u : User := { id := none, username := username, password := hashed,
                      createdAt := now, isBanned := false, roles := [] }
    match DbService.saveUser f s u with
    | (s1, .ok uid) => (s1, .ok (User.getSafeObject { u with id := some uid }))
    | (s1, .error e) =>
      (s1, .error (.generic ("Error creating new user: " ++ JsError.toStr e)))

/-- The two result shapes `authenticateUser` returns. -/
inductive AuthOutcome where
  | failure (message : String)
  | success (message : String) (user : JsObj)

/-- `UserService.authenticateUser`: look the user up by username; report
absence first, the ban second, and only then verify the password; success
carries the safe user. -/
def authenticateUser (cmp : String → String → Bool) (s : Store)
    (username password : String) : Except JsError AuthOutcome :=
  match DbService.getUserByUsername s username with
  | none => .ok (.failure "User not found")
  | some u =>
    if u.isBanned then .ok (.failure "user has been banned")
    else if !(verifyPassword cmp password u.password) then
      .ok (.failure "invalid password")
    else .ok (.success "Authentication successful" (User.getSafeObject u))

end UserService

/-- Modelled from the spec: the Token Codec of §4.2 behind
`jwt.sign`/`jwt.verify` in `utils/jwtUtils.js` (`jsonwebtoken` is an
external collaborator).  A signed token carries the claims payload, the
expiry `now + lifetime`, and a signature bound to the symmetric secret. -/
structure Token where
  payload : JsObj
  exp : Int
  sig : String

/-- `generateToken` (`jwt.sign(payload, JWT_SECRET, {expiresIn})`), with the
clock and the configured lifetime made explicit. -/
def generateToken (secret : String) (lifetime now : Int) (payload : JsObj) : Token :=
  { payload := payload, exp := now + lifetime, sig := secret }

/-- Modelled from the spec: `verifyToken` (`jwt.verify(token, JWT_SECRET)`)
fails `TokenInvalid` on a signature forged with another secret,
`TokenExpired` once the configured lifetime has elapsed, and otherwise
returns the embedded claims. -/
def verifyToken (secret : String) (now : Int) (t : Token) : Except JsError JsObj :=
  if t.sig != secret then .error (.tokenInvalid "invalid signature")
  else if t.exp ≤ now then .error (.tokenExpired "jwt expired")
  else .ok t.payload

namespace AuthService

/-- The object `register` resolves with. -/
structure RegisterResult where
  success : Bool
  message : String
  user : JsObj

/-- `AuthService.register`: require both fields, delegate to `createUser`,
and in the catch turn any error whose message contains the exact substring
`"User already exists"` into a `ConflictError`; everything else is
re-thrown unchanged. -/
def register (hashFn : String → String) (f : DbService.SaveFail) (now : Int)
    (s : Store) (username password : String) :
    Store × Except JsError RegisterResult :=
  if username == "" || password == "" then
    (s, .error (.validation "Username and password are required"))
  else
    match UserService.createUser hashFn f now s username password with
    | (s1, .ok user) =>
      (s1, .ok { success := true, message := "User registered successfully",
                 user := user })
    | (s1, .error e) =>
      if strIncludes e.message "User already exists" then
        (s1, .error (.conflict "User already exists"))
      else (s1, .error e)

/-- The object `login` resolves with. -/
structure LoginResult where
  success : Bool
  message : String
  token : Token
  user : JsObj

/-- `AuthService.login`: require both fields; run `authenticateUser` and
throw `AuthenticationError(authResult.message)` on a failed result; on
success sign a token over `{userId, username, roles}` read off the safe
user.  The catch remaps by message text: `"User not found"` becomes
`NotFoundError`, `"user has been banned"` becomes
`ForbiddenError("Permission denied")`, anything else is re-thrown. -/
def login (cmp : String → String → Bool) (secret : String) (lifetime now : Int)
    (s : Store) (username password : String) : Except JsError LoginResult :=
  let tried : Except JsError LoginResult :=
    if username == "" || password == "" then
      .error (.validation "Username and password are required")
    else
      match UserService.authenticateUser cmp s username password with
      | .error e => .error e
      | .ok (.failure msg) => .error (.authentication msg)
      | .ok (.success _ user) =>
        let token := generateToken secret lifetime now
          [("userId", objGet user "id"), ("username", objGet user "username"),
           ("roles", objGet user "roles")]
        .ok { success := true, message := "Login successful",
              token := token, user := user }
  match tried with
  | .ok r => .ok r
  | .error e =>
    if e.message == "User not found" then .error (.notFound "User not found")
    else if e.message == "user has been banned" then
      .error (.forbidden "Permission denied")
    else .error e

end AuthService

/-- `authorize(roles)` from `authMiddleware.js`, applied to `req.user` — the
decoded token payload attached by `authenticate`, absent when the request
was never authenticated.  Forbidden when there is no user, no `roles`
field, or a non-empty required list that the user's roles miss; a truthy
non-array `roles` value would make `.some` a TypeError in JS. -/
def authorize (roles : List String) (reqUser : Option JsObj) : Except JsError Unit :=
  match reqUser with
  | none => .error (.forbidden "Insufficient permissions")
  | some u =>
    match objGet u "roles" with
    | .vList rs =>
      if roles.length != 0
          && !(rs.any (fun rv => match rv with
                                 | .vStr r => roles.contains r
                                 | _ => false)) then
        .error (.forbidden "Insufficient permissions")
      else .ok ()
    | v =>
      if isTruthy v then .error (.generic "req.user.roles.some is not a function")
      else .error (.forbidden "Insufficient permissions")

/-! ## Helper lemmas -/

theorem leadMatch_self_append (p r : List Char) : leadMatch p (p ++ r) = true := by
  induction p with
  | nil => rfl
  | cons a as ih => simp [leadMatch, ih]

theorem jsSplitSpace_nospace (cs : List Char) (h : ∀ c ∈ cs, c ≠ ' ') :
    jsSplitSpace cs = [cs] := by
  induction cs with
  | nil => rfl
  | cons c cs ih =>
    have hc : c ≠ ' ' := h c (by simp)
    have hrest : jsSplitSpace cs = [cs] := ih (fun x hx => h x (by simp [hx]))
    simp [jsSplitSpace, hrest, hc]

theorem jsSplitSpace_bearer (cs : List Char) (h : ∀ c ∈ cs, c ≠ ' ') :
    jsSplitSpace ('B' :: 'e' :: 'a' :: 'r' :: 'e' :: 'r' :: ' ' :: cs)
      = [['B', 'e', 'a', 'r', 'e', 'r'], cs] := by
  simp [jsSplitSpace, jsSplitSpace_nospace cs h]

/-! ## C7 — token extraction from the Authorization header -/

/-- C7: counterexample.  The header `"Bearer a b"` is not of the shape
`Bearer <token>` (it has an extra part), yet `extractToken` yields the
token `"a"` rather than none, refuting the claim that any other shape
yields none. -/
theorem extractToken_extra_part_counterexample :
    extractToken (some "Bearer a b") = some "a"
      ∧ some "a" ≠ (none : Option String) := by
  constructor
  · decide
  · decide

/-- C7 (amended): `extractToken` yields none when the header is missing or
does not start with `"Bearer "`; when the header starts with `"Bearer "`,
it yields the first space-delimited chunk after the scheme — in particular,
for a header exactly of the shape `Bearer <token>` (the token containing no
space) it yields that token — and it never raises an error (it is a total
function into an option). -/
theorem extractToken_amended :
    extractToken none = none
    ∧ (∀ h : String, leadMatch "Bearer ".toList h.toList = false →
        extractToken (some h) = none)
    ∧ (∀ t : String, (∀ c ∈ t.toList, c ≠ ' ') →
        extractToken (some ("Bearer " ++ t)) = some t) := by
  refine ⟨rfl, ?_, ?_⟩
  · intro h hlead
    have hlead' : leadMatch ['B', 'e', 'a', 'r', 'e', 'r', ' '] h.data = false := hlead
    simp [extractToken, hlead']
  · intro t ht
    have hdata : ("Bearer " ++ t).toList
        = 'B' :: 'e' :: 'a' :: 'r' :: 'e' :: 'r' :: ' ' :: t.toList := by
      show ("Bearer " ++ t).data = _
      rw [String.data_append]
      rfl
    have hlead : leadMatch "Bearer ".toList ("Bearer " ++ t).toList = true := by
      rw [hdata]
      exact leadMatch_self_append "Bearer ".toList t.toList
    simp only [extractToken, hlead, if_true, hdata, jsSplitSpace_bearer t.toList ht]
    show some (String.mk t.data) = some t
    rfl

/-- C7 witness: a well-shaped header round-trips its token. -/
theorem extractToken_amended_witness :
    extractToken (some ("Bearer " ++ "tok123")) = some "tok123" :=
  extractToken_amended.2.2 "tok123" (by decide)

/-! ## C1 — registering an existing username -/

/-- The duplicate-registration error message that actually reaches
`register`'s catch: `createUser` throws `Error("Error user already
exists:")` and its own catch re-wraps it. -/
theorem createUser_duplicate_message :
    ("Error creating new user: "
        ++ JsError.toStr (.generic "Error user already exists:"))
      = "Error creating new user: Error: Error user already exists:" := rfl

/-- `register`'s catch looks for the capitalised substring
`"User already exists"`, which the actual message does not contain. -/
theorem duplicate_message_misses_check :
    strIncludes "Error creating new user: Error: Error user already exists:"
      "User already exists" = false := by decide

/-- C1: registering a username already present in the store raises, on the
second call, a *generic* `Error` — not the `ConflictError` the claim and
`register`'s own doc comment promise — because the catch in
`AuthService.register` tests `error.message.includes("User already exists")`
(capital U) while `UserService.createUser` throws
`"Error user already exists:"` (lowercase u), a case-sensitive mismatch.
The store part of the claim does hold: the duplicate call leaves the store
unchanged, so a username stored exactly once stays stored exactly once. -/
theorem register_duplicate_generic_not_conflict
    (hashFn : String → String) (f : DbService.SaveFail) (now : Int)
    (s : Store) (username password : String)
    (hu : username ≠ "") (hp : password ≠ "")
    (hdup : (DbService.getUserByUsername s username).isSome = true) :
    AuthService.register hashFn f now s username password
      = (s, .error (.generic
          "Error creating new user: Error: Error user already exists:"))
    ∧ (∀ c, AuthService.register hashFn f now s username password
          ≠ (s, .error (.conflict c)))
    ∧ ((s.users.filter (fun r => r.username == username)).length = 1 →
        (((AuthService.register hashFn f now s username password).1.users.filter
            (fun r => r.username == username)).length = 1)) := by
  obtain ⟨u, hu'⟩ := Option.isSome_iff_exists.mp hdup
  have hmain : AuthService.register hashFn f now s username password
      = (s, .error (.generic
          "Error creating new user: Error: Error user already exists:")) := by
    simp only [AuthService.register, UserService.createUser,
      UserService.getUserByUsername, hu', Option.map_some']
    have hcond : (username == "" || password == "") = false := by
      simp [hu, hp]
    rw [if_neg (by simp [hu, hp])]
    simp only [JsError.message]
    rw [if_neg (by decide)]
    rfl
  refine ⟨hmain, ?_, ?_⟩
  · intro c hc
    rw [hmain] at hc
    simp at hc
  · intro hone
    rw [hmain]
    exact hone

/-- A store already holding the user `alice` (id 1, the seeded roles, and
the default role link). -/
def storeAlice : Store :=
  { users := [{ id := 1, username := "alice", password := "hash1",
                created_at := 0, is_banned := false }],
    roles := [(1, "user"), (2, "admin")],
    user_roles := [(1, 1)],
    nextId := 2 }

/-- C1 witness: the second registration of `alice` on a concrete store. -/
theorem register_duplicate_generic_not_conflict_witness :
    AuthService.register (fun p => p) DbService.SaveFail.noFail 0
        storeAlice "alice" "pw2"
      = (storeAlice, .error (.generic
          "Error creating new user: Error: Error user already exists:")) :=
  (register_duplicate_generic_not_conflict (fun p => p) DbService.SaveFail.noFail 0
      storeAlice "alice" "pw2" (by decide) (by decide) (by decide)).1

/-! ## C2 — banned users get no password-correctness signal -/

/-- C2: for a stored, banned user, `authenticateUser` answers
`{success:false, message:"user has been banned"}` whatever the supplied
password, and the answer does not depend on the password-verification
function at all (it is never consulted): two runs with arbitrary different
passwords and arbitrary different `bcrypt.compare` oracles agree. -/
theorem authenticateUser_banned_no_password_signal
    (s : Store) (username : String) (u : User)
    (hfind : DbService.getUserByUsername s username = some u)
    (hban : u.isBanned = true)
    (cmp1 cmp2 : String → String → Bool) (p1 p2 : String) :
    UserService.authenticateUser cmp1 s username p1
        = .ok (.failure "user has been banned")
    ∧ UserService.authenticateUser cmp1 s username p1
        = UserService.authenticateUser cmp2 s username p2 := by
  constructor
  · simp [UserService.authenticateUser, hfind, hban]
  · simp [UserService.authenticateUser, hfind, hban]

/-- A store holding the banned user `mallory` (id 1). -/
def storeBannedMallory : Store :=
  { users := [{ id := 1, username := "mallory", password := "hashM",
                created_at := 0, is_banned := true }],
    roles := [(1, "user"), (2, "admin")],
    user_roles := [(1, 1)],
    nextId := 2 }

/-- C2 witness: the banned user `mallory`, probed with a correct-password
oracle and an always-wrong oracle. -/
theorem authenticateUser_banned_no_password_signal_witness :
    UserService.authenticateUser (fun _ _ => true) storeBannedMallory
        "mallory" "right-password"
      = .ok (.failure "user has been banned")
    ∧ UserService.authenticateUser (fun _ _ => true) storeBannedMallory
        "mallory" "right-password"
      = UserService.authenticateUser (fun _ _ => false) storeBannedMallory
          "mallory" "wrong-password" :=
  authenticateUser_banned_no_password_signal storeBannedMallory "mallory"
    (mapDbUserToModel storeBannedMallory
      { id := 1, username := "mallory", password := "hashM",
        created_at := 0, is_banned := true })
    (by decide) (by decide) (fun _ _ => true) (fun _ _ => false)
    "right-password" "wrong-password"

/-! ## C3 — saveUser runs both inserts in one transaction -/

/-- C3: `saveUser`'s transaction.  When both statements succeed the commit
installs the `users` row (with the generated id) *and* the `(id, roleId=1)`
link together, so every user carries the default "user" role link right
after creation.  When either insert fails, the transaction rolls back
fully — the returned store is exactly the pre-call store, so there is no
user row without its role link and no leftover user row — and the
underlying error is propagated unchanged. -/
theorem saveUser_transactional (s : Store) (u : User) (f : DbService.SaveFail) :
    (f = DbService.SaveFail.noFail →
      DbService.saveUser f s u
        = ({ users := s.users ++ [{ id := s.nextId, username := u.username,
                                    password := u.password,
                                    created_at := u.createdAt,
                                    is_banned := u.isBanned }],
             roles := s.roles,
             user_roles := s.user_roles ++ [(s.nextId, 1)],
             nextId := s.nextId + 1 }, .ok s.nextId)
      ∧ (s.nextId, 1) ∈ (DbService.saveUser f s u).1.user_roles)
    ∧ (∀ e, f.onUserIns = some e →
        DbService.saveUser f s u = (s, .error e))
    ∧ (∀ e, f.onUserIns = none → f.onRoleIns = some e →
        DbService.saveUser f s u = (s, .error e)) := by
  refine ⟨?_, ?_, ?_⟩
  · rintro rfl
    constructor
    · rfl
    · simp [DbService.saveUser, DbService.SaveFail.noFail]
  · intro e he
    simp [DbService.saveUser, he]
  · intro e h1 h2
    simp [DbService.saveUser, h1, h2]

/-- An empty seeded store to create users into. -/
def storeSeeded : Store :=
  { users := [], roles := [(1, "user"), (2, "admin")], user_roles := [], nextId := 1 }

/-- C3 witness: a concrete save on the seeded store commits the row and the
default-role link together. -/
theorem saveUser_transactional_witness :
    DbService.saveUser DbService.SaveFail.noFail storeSeeded
        { id := none, username := "bob", password := "hashB",
          createdAt := 5, isBanned := false, roles := [] }
      = ({ users := [{ id := 1, username := "bob", password := "hashB",
                       created_at := 5, is_banned := false }],
           roles := [(1, "user"), (2, "admin")],
           user_roles := [(1, 1)],
           nextId := 2 }, .ok 1) :=
  ((saveUser_transactional storeSeeded
      { id := none, username := "bob", password := "hashB",
        createdAt := 5, isBanned := false, roles := [] }
      DbService.SaveFail.noFail).1 rfl).1

/-! ## C4 — deleteById: one transaction, NotFound on zero rows -/

/-- C4: `deleteUser` wraps both deletes in one transaction (BEGIN before
the `user_roles` delete, COMMIT after the `users` delete).  For an id with
no `users` row, under referential integrity of `user_roles`, both deletes
touch nothing: the call still reports `NotFoundError` and the committed
store is exactly the pre-call store.  A failure of either statement inside
the transaction rolls the whole transaction back and propagates the
underlying error. -/
theorem deleteUser_notfound_no_change
    (s : Store) (id : Nat)
    (hlink : Store.rolesLinked s)
    (habs : ∀ r ∈ s.users, r.id ≠ id) :
    DbService.deleteUser DbService.DelFail.noFail s id
      = (s, .error (.notFound "User not found"))
    ∧ (∀ f : DbService.DelFail, ∀ e, f.onRoleDel = some e →
        DbService.deleteUser f s id = (s, .error e))
    ∧ (∀ f : DbService.DelFail, ∀ e, f.onRoleDel = none → f.onUserDel = some e →
        DbService.deleteUser f s id = (s, .error e)) := by
  have hur : s.user_roles.filter (fun p => p.1 != id) = s.user_roles := by
    rw [List.filter_eq_self]
    intro p hp
    obtain ⟨r, hr, hrid⟩ := hlink p hp
    have hne : p.1 ≠ id := by
      have := habs r hr
      omega
    simpa using hne
  have hu0 : s.users.filter (fun r => r.id == id) = [] := by
    rw [List.filter_eq_nil_iff]
    intro r hr
    simp [habs r hr]
  have hu1 : s.users.filter (fun r => r.id != id) = s.users := by
    rw [List.filter_eq_self]
    intro r hr
    simpa using habs r hr
  refine ⟨?_, ?_, ?_⟩
  · simp only [DbService.deleteUser, DbService.DelFail.noFail, hur, hu0, hu1]
    rfl
  · intro f e he
    simp [DbService.deleteUser, he]
  · intro f e h1 h2
    simp [DbService.deleteUser, h1, h2]

/-- C4 witness: deleting the missing id 7 from the `alice` store reports
NotFound and commits no change. -/
theorem deleteUser_notfound_no_change_witness :
    DbService.deleteUser DbService.DelFail.noFail storeAlice 7
      = (storeAlice, .error (.notFound "User not found")) :=
  (deleteUser_notfound_no_change storeAlice 7
      (by
        intro p hp
        simp [storeAlice] at hp
        exact ⟨{ id := 1, username := "alice", password := "hash1",
                 created_at := 0, is_banned := false },
               by simp [storeAlice], by simp [hp]⟩)
      (by intro r hr; simp [storeAlice] at hr; simp [hr])).1

/-! ## C5 — login maps authentication failures by message -/

theorem objGet_safe_id (u : User) :
    objGet (User.getSafeObject u) "id"
      = (match u.id with | some n => .vNum n | none => .vNull) := rfl

theorem objGet_safe_username (u : User) :
    objGet (User.getSafeObject u) "username" = .vStr u.username := rfl

theorem objGet_safe_roles (u : User) :
    objGet (User.getSafeObject u) "roles"
      = .vList (u.roles.map (fun r => .vStr r)) := rfl

/-- C5: with both fields supplied, `login` fails `NotFoundError` when the
username has no row; `ForbiddenError("Permission denied")` when the stored
user is banned; and a plain `AuthenticationError("invalid password")` —
not a not-found signal — when the password is wrong for an existing,
unbanned user.  With a correct password it resolves `{token, user}` where
the token's payload embeds exactly the stored user's
`{userId, username, roles}`. -/
theorem login_maps_messages
    (cmp : String → String → Bool) (secret : String) (lifetime now : Int)
    (s : Store) (username password : String)
    (hu : username ≠ "") (hp : password ≠ "") :
    (DbService.getUserByUsername s username = none →
      AuthService.login cmp secret lifetime now s username password
        = .error (.notFound "User not found"))
    ∧ (∀ row, s.users.find? (fun r => r.username == username) = some row →
        row.is_banned = true →
        AuthService.login cmp secret lifetime now s username password
          = .error (.forbidden "Permission denied"))
    ∧ (∀ row, s.users.find? (fun r => r.username == username) = some row →
        row.is_banned = false → cmp password row.password = false →
        AuthService.login cmp secret lifetime now s username password
          = .error (.authentication "invalid password"))
    ∧ (∀ row, s.users.find? (fun r => r.username == username) = some row →
        row.is_banned = false → cmp password row.password = true →
        AuthService.login cmp secret lifetime now s username password
          = .ok { success := true, message := "Login successful",
                  token := { payload :=
                               [("userId", .vNum row.id),
                                ("username", .vStr row.username),
                                ("roles", .vList ((rolesOfUser s row.id).map
                                                    (fun r => .vStr r)))],
                             exp := now + lifetime, sig := secret },
                  user := User.getSafeObject (mapDbUserToModel s row) }) := by
  have hcond : (username == "" || password == "") = false := by simp [hu, hp]
  refine ⟨?_, ?_, ?_, ?_⟩
  · intro hnone
    simp [AuthService.login, UserService.authenticateUser, hnone, hcond,
      JsError.message]
  · intro row hfind hban
    have hget : DbService.getUserByUsername s username
        = some (mapDbUserToModel s row) := by
      simp [DbService.getUserByUsername, hfind]
    simp [AuthService.login, UserService.authenticateUser, hget, hcond,
      mapDbUserToModel, hban, JsError.message]
  · intro row hfind hban hcmp
    have hget : DbService.getUserByUsername s username
        = some (mapDbUserToModel s row) := by
      simp [DbService.getUserByUsername, hfind]
    simp [AuthService.login, UserService.authenticateUser, hget, hcond,
      mapDbUserToModel, hban, UserService.verifyPassword, hcmp, JsError.message]
  · intro row hfind hban hcmp
    have hget : DbService.getUserByUsername s username
        = some (mapDbUserToModel s row) := by
      simp [DbService.getUserByUsername, hfind]
    simp [AuthService.login, UserService.authenticateUser, hget, hcond,
      UserService.verifyPassword, hban, hcmp, objGet_safe_id, objGet_safe_username,
      objGet_safe_roles, generateToken, mapDbUserToModel]

/-- C5 witness: a successful login for `alice` on a concrete store, with a
password the verifier accepts. -/
theorem login_maps_messages_witness :
    AuthService.login (fun _ _ => true) "s3cr3t" 24 100 storeAlice "alice" "pw1"
      = .ok { success := true, message := "Login successful",
              token := { payload :=
                           [("userId", JsValue.vNum 1),
                            ("username", .vStr "alice"),
                            ("roles", .vList [.vStr "user"])],
                         exp := 124, sig := "s3cr3t" },
              user := [("id", JsValue.vNum 1), ("username", .vStr "alice"),
                       ("createdAt", .vDate 0), ("isBanned", .vBool false),
                       ("roles", .vList [.vStr "user"])] } :=
  (login_maps_messages (fun _ _ => true) "s3cr3t" 24 100 storeAlice "alice" "pw1"
      (by decide) (by decide)).2.2.2
    { id := 1, username := "alice", password := "hash1",
      created_at := 0, is_banned := false }
    (by decide) (by decide) (by decide)

/-! ## C6 — authorize: role-intersection gate -/

/-- The `.some(role => roles.includes(role))` test over an array of role
names reduces to a membership test on the names. -/
theorem any_vStr_contains (names requiredRoles : List String) :
    ((names.map (fun r => JsValue.vStr r)).any
        (fun rv => match rv with
                   | JsValue.vStr r => requiredRoles.contains r
                   | _ => false))
      = names.any (fun r => requiredRoles.contains r) := by
  induction names with
  | nil => rfl
  | cons a l ih => rw [List.map_cons, List.any_cons, List.any_cons, ih]

/-- C6: on an authenticated context — `req.user` present and carrying a
`roles` array of role-name strings — `authorize(requiredRoles)` throws
`ForbiddenError` exactly when `requiredRoles` is non-empty and shares no
name with the context's roles; the empty `requiredRoles` list passes any
authenticated context.  In particular `authorize(["admin"])` rejects a
context whose roles are `["user"]` and accepts one whose roles are
`["user","admin"]`. -/
theorem authorize_role_intersection
    (requiredRoles : List String) (u : JsObj) (names : List String)
    (hroles : objGet u "roles" = .vList (names.map (fun r => .vStr r))) :
    (authorize requiredRoles (some u)
        = .error (.forbidden "Insufficient permissions")
      ↔ requiredRoles ≠ [] ∧ ∀ r ∈ names, r ∉ requiredRoles)
    ∧ authorize ["admin"] (some [("roles", JsValue.vList [.vStr "user"])])
        = .error (.forbidden "Insufficient permissions")
    ∧ authorize ["admin"]
        (some [("roles", JsValue.vList [.vStr "user", .vStr "admin"])])
        = .ok () := by
  refine ⟨?_, rfl, rfl⟩
  simp only [authorize, hroles]
  rw [any_vStr_contains]
  split_ifs with hc
  · rw [Bool.and_eq_true] at hc
    obtain ⟨h1, h2⟩ := hc
    have hanyf : (names.any fun r => requiredRoles.contains r) = false := by
      simpa using h2
    rw [List.any_eq_false] at hanyf
    constructor
    · intro _
      refine ⟨?_, ?_⟩
      · intro hnil
        subst hnil
        simp at h1
      · intro r hr hrr
        exact absurd (by simpa using hrr : requiredRoles.contains r = true)
          (by simpa using hanyf r hr)
    · intro _
      rfl
  · constructor
    · intro h
      exact absurd h (by simp)
    · rintro ⟨hne, hall⟩
      exfalso
      apply hc
      rw [Bool.and_eq_true]
      refine ⟨?_, ?_⟩
      · cases requiredRoles with
        | nil => exact absurd rfl hne
        | cons a l => simp
      · have : (names.any fun r => requiredRoles.contains r) = false := by
          rw [List.any_eq_false]
          intro r hr
          simpa using hall r hr
        rw [this]
        rfl

/-- C6 witness: a context with roles `["user","admin"]` against
`requiredRoles = ["admin"]` is not rejected. -/
theorem authorize_role_intersection_witness :
    ¬ (authorize ["admin"]
         (some [("roles", JsValue.vList [.vStr "user", .vStr "admin"])])
       = .error (.forbidden "Insufficient permissions")) :=
  fun h =>
    absurd (((authorize_role_intersection ["admin"]
        [("roles", JsValue.vList [.vStr "user", .vStr "admin"])]
        ["user", "admin"] rfl).1).mp h)
      (by simp)

/-! ## C8 — the safe projection strips the credential hash -/

/-- The safe object's field names are fixed by its literal: exactly the
five public fields, never a credential field. -/
theorem safeObject_no_password (u : User) :
    objKeys (User.getSafeObject u)
        = ["id", "username", "createdAt", "isBanned", "roles"]
    ∧ "password" ∉ objKeys (User.getSafeObject u)
    ∧ "passwordHash" ∉ objKeys (User.getSafeObject u) := by
  refine ⟨rfl, ?_, ?_⟩
  · show "password" ∉ ["id", "username", "createdAt", "isBanned", "roles"]
    decide
  · show "passwordHash" ∉ ["id", "username", "createdAt", "isBanned", "roles"]
    decide

/-- C8: every user object crossing the service boundary — the result of
`createUser`, a present `getUserById`/`getUserByUsername` result, every
element of `getAllUsers`, and the `user` of a successful
`authenticateUser` — carries exactly the fields id, username, createdAt,
isBanned, roles, and never a `password` or `passwordHash` field. -/
theorem service_boundary_safe_projection :
    (∀ (hashFn : String → String) (f : DbService.SaveFail) (now : Int)
        (s s1 : Store) (username password : String) (obj : JsObj),
        UserService.createUser hashFn f now s username password = (s1, .ok obj) →
        objKeys obj = ["id", "username", "createdAt", "isBanned", "roles"]
        ∧ "password" ∉ objKeys obj ∧ "passwordHash" ∉ objKeys obj)
    ∧ (∀ (s : Store) (id : Nat) (obj : JsObj),
        UserService.getUserById s id = some obj →
        objKeys obj = ["id", "username", "createdAt", "isBanned", "roles"]
        ∧ "password" ∉ objKeys obj ∧ "passwordHash" ∉ objKeys obj)
    ∧ (∀ (s : Store) (username : String) (obj : JsObj),
        UserService.getUserByUsername s username = some obj →
        objKeys obj = ["id", "username", "createdAt", "isBanned", "roles"]
        ∧ "password" ∉ objKeys obj ∧ "passwordHash" ∉ objKeys obj)
    ∧ (∀ (s : Store) (obj : JsObj),
        obj ∈ UserService.getAllUsers s →
        objKeys obj = ["id", "username", "createdAt", "isBanned", "roles"]
        ∧ "password" ∉ objKeys obj ∧ "passwordHash" ∉ objKeys obj)
    ∧ (∀ (cmp : String → String → Bool) (s : Store)
        (username password m : String) (obj : JsObj),
        UserService.authenticateUser cmp s username password
            = .ok (.success m obj) →
        objKeys obj = ["id", "username", "createdAt", "isBanned", "roles"]
        ∧ "password" ∉ objKeys obj ∧ "passwordHash" ∉ objKeys obj) := by
  refine ⟨?_, ?_, ?_, ?_, ?_⟩
  · intro hashFn f now s s1 username password obj h
    unfold UserService.createUser at h
    cases hfind : UserService.getUserByUsername s username with
    | some x =>
      rw [hfind] at h
      simp at h
    | none =>
      rw [hfind] at h
      dsimp only at h
      rcases hsave : DbService.saveUser f s
          { id := none, username := username,
            password := UserService.hashPassword hashFn password,
            createdAt := now, isBanned := false, roles := [] } with ⟨s2, res⟩
      rw [hsave] at h
      cases res with
      | error e => simp at h
      | ok uid =>
        simp only [Prod.mk.injEq, Except.ok.injEq] at h
        rw [← h.2]
        exact safeObject_no_password _
  · intro s id obj h
    obtain ⟨u, _, hobj⟩ := Option.map_eq_some'.mp h
    rw [← hobj]
    exact safeObject_no_password u
  · intro s username obj h
    obtain ⟨u, _, hobj⟩ := Option.map_eq_some'.mp h
    rw [← hobj]
    exact safeObject_no_password u
  · intro s obj h
    obtain ⟨u, _, hobj⟩ := List.mem_map.mp h
    rw [← hobj]
    exact safeObject_no_password u
  · intro cmp s username password m obj h
    unfold UserService.authenticateUser at h
    cases hfind : DbService.getUserByUsername s username with
    | none =>
      rw [hfind] at h
      simp at h
    | some u =>
      rw [hfind] at h
      dsimp only at h
      cases hban : u.isBanned with
      | true =>
        rw [hban] at h
        simp at h
      | false =>
        rw [hban] at h
        cases hcmp : UserService.verifyPassword cmp password u.password with
        | false =>
          rw [hcmp] at h
          simp at h
        | true =>
          rw [hcmp] at h
          simp only [Bool.not_true, Bool.false_eq_true, if_false,
            Except.ok.injEq, UserService.AuthOutcome.success.injEq] at h
          rw [← h.2]
          exact safeObject_no_password u

/-- C8 witness: the safe user returned for `alice` by `getUserByUsername`
has exactly the five public fields. -/
theorem service_boundary_safe_projection_witness :
    objKeys (User.getSafeObject (mapDbUserToModel storeAlice
        { id := 1, username := "alice", password := "hash1",
          created_at := 0, is_banned := false }))
      = ["id", "username", "createdAt", "isBanned", "roles"]
    ∧ "password" ∉ objKeys (User.getSafeObject (mapDbUserToModel storeAlice
        { id := 1, username := "alice", password := "hash1",
          created_at := 0, is_banned := false }))
    ∧ "passwordHash" ∉ objKeys (User.getSafeObject (mapDbUserToModel storeAlice
        { id := 1, username := "alice", password := "hash1",
          created_at := 0, is_banned := false })) :=
  service_boundary_safe_projection.2.2.1 storeAlice "alice"
    (User.getSafeObject (mapDbUserToModel storeAlice
        { id := 1, username := "alice", password := "hash1",
          created_at := 0, is_banned := false }))
    rfl

/-! ## C9 — token issue/verify round trip and expiry -/

/-- C9: issuing a token over claims `{userId, username, roles}` and
verifying it with the same secret returns exactly the original claims as
long as the configured lifetime has not elapsed, and fails `TokenExpired`
once it has. -/
theorem token_round_trip (secret : String) (lifetime t0 now : Int)
    (userId : Int) (username : String) (roles : List String) :
    (now < t0 + lifetime →
      verifyToken secret now (generateToken secret lifetime t0
          [("userId", .vNum userId), ("username", .vStr username),
           ("roles", .vList (roles.map (fun r => .vStr r)))])
        = .ok [("userId", .vNum userId), ("username", .vStr username),
               ("roles", .vList (roles.map (fun r => .vStr r)))])
    ∧ (t0 + lifetime ≤ now →
      verifyToken secret now (generateToken secret lifetime t0
          [("userId", .vNum userId), ("username", .vStr username),
           ("roles", .vList (roles.map (fun r => .vStr r)))])
        = .error (.tokenExpired "jwt expired")) := by
  constructor
  · intro hlt
    have hn : ¬ (t0 + lifetime ≤ now) := by omega
    simp [verifyToken, generateToken, hn]
  · intro hle
    simp [verifyToken, generateToken, hle]

/-- C9 witness: a concrete token for user 7 verified before and after the
24-unit lifetime. -/
theorem token_round_trip_witness :
    verifyToken "k" 10 (generateToken "k" 24 0
        [("userId", JsValue.vNum 7), ("username", .vStr "alice"),
         ("roles", .vList [.vStr "user"])])
      = .ok [("userId", JsValue.vNum 7), ("username", .vStr "alice"),
             ("roles", .vList [.vStr "user"])]
    ∧ verifyToken "k" 30 (generateToken "k" 24 0
        [("userId", JsValue.vNum 7), ("username", .vStr "alice"),
         ("roles", .vList [.vStr "user"])])
      = .error (.tokenExpired "jwt expired") :=
  ⟨(token_round_trip "k" 24 0 10 7 "alice" ["user"]).1 (by decide),
   (token_round_trip "k" 24 0 30 7 "alice" ["user"]).2 (by decide)⟩

/-! ## C10 — ban/unban touch only the is_banned column -/

theorem get?_map_eq {α β : Type} (f : α → β) (l : List α) (i : Nat) :
    (l.map f).get? i = (l.get? i).map f := by
  induction l generalizing i with
  | nil => cases i <;> rfl
  | cons a l ih =>
    cases i with
    | zero => rfl
    | succ n => exact ih n

/-- C10: for an id with a `users` row, `banUser` and `unbanUser` succeed
and change nothing but the `is_banned` column of the matching row: the
`roles` and `user_roles` tables, the id sequence, the row count, every
row's `id`, `username`, `password` and `created_at`, and every other row
entirely, are untouched. -/
theorem ban_unban_frame (s : Store) (id : Nat)
    (hpresent : (s.users.filter (fun r => r.id == id)).length ≠ 0) :
    ((DbService.banUser s id).2 = .ok true
      ∧ (DbService.banUser s id).1.roles = s.roles
      ∧ (DbService.banUser s id).1.user_roles = s.user_roles
      ∧ (DbService.banUser s id).1.nextId = s.nextId
      ∧ (DbService.banUser s id).1.users.length = s.users.length
      ∧ (∀ i : Nat, ∀ r : UserRow, s.users.get? i = some r →
          ∃ r', (DbService.banUser s id).1.users.get? i = some r'
            ∧ r'.id = r.id ∧ r'.username = r.username
            ∧ r'.password = r.password ∧ r'.created_at = r.created_at
            ∧ (r.id ≠ id → r' = r)
            ∧ (r.id = id → r'.is_banned = true)))
    ∧ ((DbService.unbanUser s id).2 = .ok true
      ∧ (DbService.unbanUser s id).1.roles = s.roles
      ∧ (DbService.unbanUser s id).1.user_roles = s.user_roles
      ∧ (DbService.unbanUser s id).1.nextId = s.nextId
      ∧ (DbService.unbanUser s id).1.users.length = s.users.length
      ∧ (∀ i : Nat, ∀ r : UserRow, s.users.get? i = some r →
          ∃ r', (DbService.unbanUser s id).1.users.get? i = some r'
            ∧ r'.id = r.id ∧ r'.username = r.username
            ∧ r'.password = r.password ∧ r'.created_at = r.created_at
            ∧ (r.id ≠ id → r' = r)
            ∧ (r.id = id → r'.is_banned = false))) := by
  have hcond : ((((s.users.filter (fun r => r.id == id)).map
      (fun r => r.id)).length == 0) = false) := by
    simp only [List.length_map]
    simpa using hpresent
  have hban2 : DbService.banUser s id
      = (Store.mk
          (s.users.map (fun r => if r.id == id then { r with is_banned := true } else r))
          s.roles s.user_roles s.nextId,
         .ok true) := by
    simp only [DbService.banUser, hcond, Bool.false_eq_true, if_false]
  have hunban2 : DbService.unbanUser s id
      = (Store.mk
          (s.users.map (fun r => if r.id == id then { r with is_banned := false } else r))
          s.roles s.user_roles s.nextId,
         .ok true) := by
    simp only [DbService.unbanUser, hcond, Bool.false_eq_true, if_false]
  constructor
  · refine ⟨by rw [hban2], by rw [hban2], by rw [hban2], by rw [hban2],
      by rw [hban2]; simp, ?_⟩
    intro i r hr
    rw [hban2]
    refine ⟨if r.id == id then { r with is_banned := true } else r, ?_, ?_⟩
    · show (List.map _ s.users).get? i = _
      rw [get?_map_eq, hr]
      rfl
    · by_cases hid : r.id = id
      · simp [hid]
      · simp [hid]
  · refine ⟨by rw [hunban2], by rw [hunban2], by rw [hunban2], by rw [hunban2],
      by rw [hunban2]; simp, ?_⟩
    intro i r hr
    rw [hunban2]
    refine ⟨if r.id == id then { r with is_banned := false } else r, ?_, ?_⟩
    · show (List.map _ s.users).get? i = _
      rw [get?_map_eq, hr]
      rfl
    · by_cases hid : r.id = id
      · simp [hid]
      · simp [hid]

/-- C10 witness: banning `alice` (id 1) in the concrete store. -/
theorem ban_unban_frame_witness :
    (DbService.banUser storeAlice 1).2 = .ok true
    ∧ (DbService.banUser storeAlice 1).1.user_roles = storeAlice.user_roles :=
  ⟨((ban_unban_frame storeAlice 1 (by decide)).1).1,
   ((ban_unban_frame storeAlice 1 (by decide)).1).2.2.1⟩
